import Mathlib

/-!
Verification development for the `excelfilevalidator` repository.

The repository validates tabular (Excel / CSV) data against a configurable
set of rules (`validation_rules.py`), orchestrated by `ExcelValidator`
(`excel_validator.py`), and separately flags probable duplicate names by a
fuzzy pairwise scan (`main.py`).

This file is a shallow embedding of that code:

* a cell of the table is `Cell` (null, numeric, or text); pandas machine
  floats are modelled by `ℚ`, which is faithful for every comparison,
  equality and fractional-part test the code performs on the values that
  occur in these tables;
* a data frame is an ordered association list of named columns;
* each rule function of `ValidationRules` becomes a Lean function returning
  a `Result` record mirroring the Python result dict;
* the orchestrator method `ExcelValidator.validate_data` and its helper
  `_add_skipped_results_for_config` become `validateData` and
  `addSkippedResultsForConfig` over an explicit `Session` state;
* `ExcelValidator.generate_report` (without an output path, i.e. the pure
  rendering part) becomes `renderReport` / `generateReport`;
* `main.find_duplicates` becomes `findDuplicates`, parametric in the
  string-similarity metric, an external function of the fuzzywuzzy
  library and hence an abstract parameter of the model.
-/

namespace ExcelFileValidator

/-- One cell of a loaded table: absent/NaN, a numeric value, or a text
value.  Numeric cells are rationals: pandas ints and floats both embed, and
every operation the code performs on them (ordering, equality, `% 1`)
coincides with the rational one. -/
inductive Cell where
  | null : Cell
  | num (q : ℚ) : Cell
  | text (s : String) : Cell
deriving DecidableEq

instance : Inhabited Cell := ⟨Cell.null⟩

/-- Whether a cell is null, modelling `pd.isna` on the cell. -/
def Cell.isNull : Cell → Bool
  | Cell.null => true
  | _ => false

/-- Digit-string value, e.g. `digitsVal ['4','2'] = 42`. -/
def digitsVal (cs : List Char) : ℕ :=
  cs.foldl (fun a c => a * 10 + (c.toNat - 48)) 0

/-- Numeric parsing of a string, modelling what `pd.to_numeric` accepts on
a text cell: an optional sign, then a decimal numeral with an optional
single decimal point.  Anything else fails.  (The exact set of accepted
spellings never matters to the claims, which only distinguish succeeding
from failing coercion; this parser fixes one faithful executable choice.) -/
def parseNum (s : String) : Option ℚ :=
  let go : List Char → Option ℚ := fun cs =>
    let intPart := cs.takeWhile Char.isDigit
    let rest := cs.dropWhile Char.isDigit
    match rest with
    | [] =>
        if intPart.isEmpty then none
        else some ((digitsVal intPart : ℚ))
    | '.' :: frac =>
        if frac.all Char.isDigit && !(intPart.isEmpty && frac.isEmpty) then
          some ((digitsVal intPart : ℚ) + (digitsVal frac : ℚ) / (10 : ℚ) ^ frac.length)
        else none
    | _ => none
  match s.data with
  | '-' :: cs => (go cs).map (fun q => -q)
  | '+' :: cs => go cs
  | cs => go cs

/-- Best-effort numeric coercion of one cell: the Type Coercion Helper,
modelling `pd.to_numeric` applied to a single value (`errors` raising or
coercing is handled at each call site by the `Option`).  A null cell
coerces to NaN in pandas, i.e. carries no numeric value: `none` here. -/
def Cell.toNumeric? : Cell → Option ℚ
  | Cell.null => none
  | Cell.num q => some q
  | Cell.text s => parseNum s

/-- Decimal-style rendering of a rational, standing in for Python number
formatting inside detail strings (integral values print without a point;
the precise float formatting of Python is irrelevant to every claim). -/
def ratRepr (q : ℚ) : String :=
  if q.den = 1 then toString q.num else toString q.num ++ "/" ++ toString q.den

/-- Python `str(value)` on a cell, as used by `find_duplicates`. -/
def Cell.toText : Cell → String
  | Cell.null => "nan"
  | Cell.num q => ratRepr q
  | Cell.text s => s

/-- Python `repr` of a cell inside a printed list, as pandas/Python render
values in f-strings (`nan` for nulls, quoted text). -/
def Cell.pyRepr : Cell → String
  | Cell.null => "nan"
  | Cell.num q => ratRepr q
  | Cell.text s => "\x27" ++ s ++ "\x27"

/-- Python list repr of a list of cells, e.g. `[2, nan]`. -/
def pyCellList (l : List Cell) : String :=
  "[" ++ String.intercalate (", ") (l.map Cell.pyRepr) ++ "]"

/-- Python list repr of a list of naturals, e.g. `[0, 2]`. -/
def pyNatList (l : List ℕ) : String :=
  "[" ++ String.intercalate (", ") (l.map toString) ++ "]"

/-- Python list repr of a list of strings, each element quoted. -/
def pyStrList (l : List String) : String :=
  "[" ++ String.intercalate (", ") (l.map (fun s => "\x27" ++ s ++ "\x27")) ++ "]"

/-- A loaded table: ordered columns, each a name with its cells (all rule
functions of the repository access the table column-wise). -/
abbrev DataFrame := List (String × List Cell)

/-- Column lookup, modelling `df[column]` resp. `column in df.columns`. -/
def colLookup (df : DataFrame) (c : String) : Option (List Cell) :=
  df.lookup c

/-- One Outcome Record, mirroring the Python result dict of every rule:
`rule` and `status` always present, `column` and `details` optional. -/
structure Result where
  rule : String
  status : String
  column : Option String := none
  details : Option String := none
deriving DecidableEq

/-- ASCII lowering of one character, as Python `str.lower()` acts on the
type tags (`int`, `float`, `object`, `str`, `bool`) the code compares. -/
def charLower (c : Char) : Char :=
  if ('A' ≤ c ∧ c ≤ 'Z') then Char.ofNat (c.toNat + 32) else c

/-- Python `expected_type.lower()` on a type tag. -/
def strLower (s : String) : String :=
  ⟨s.data.map charLower⟩

/-- The value 3.5 from the `[1.0, 2.0, 3.5]` example of the spec, written in
lowest terms (so the kernel can evaluate it without gcd normalization). -/
def threeAndHalf : ℚ :=
  Rat.mk' 7 2 (by norm_num) (by norm_num)

/-- Rule `check_column_names` (`validation_rules.py` lines 5-13). -/
def checkColumnNames (df? : Option DataFrame) (expected : List String) : Result :=
  match df? with
  | none =>
      { rule := "check_column_names", status := "skipped",
        details := some ("DataFrame not loaded") }
  | some df =>
      let missing := expected.filter (fun c => !((df.map Prod.fst).contains c))
      if missing.isEmpty then
        { rule := "check_column_names", status := "passed" }
      else
        { rule := "check_column_names", status := "failed",
          details := some ("Missing columns: " ++ pyStrList missing) }

/-- Count of null cells in a column, modelling `df[col].isnull().sum()`. -/
def countNulls (col : List Cell) : ℕ :=
  col.countP Cell.isNull

/-- Python dict repr of a column-to-count mapping: a left brace, then
comma-separated quoted-column-colon-count entries, then a right brace, as
an f-string renders `missing_columns_info`. -/
def pyCountDict (l : List (String × ℕ)) : String :=
  "\x7b" ++
    String.intercalate (", ")
      (l.map (fun p => "\x27" ++ p.1 ++ "\x27: " ++ toString p.2)) ++ "\x7d"

/-- Rule `check_missing_values` (`validation_rules.py` lines 15-24). -/
def checkMissingValues (df? : Option DataFrame) : Result :=
  match df? with
  | none =>
      { rule := "check_missing_values", status := "skipped",
        details := some ("DataFrame not loaded") }
  | some df =>
      let missingInfo := (df.map (fun p => (p.1, countNulls p.2))).filter
        (fun p => 0 < p.2)
      if missingInfo.isEmpty then
        { rule := "check_missing_values", status := "passed" }
      else
        { rule := "check_missing_values", status := "failed",
          details := some ("Columns with missing values: " ++ pyCountDict missingInfo) }

/-- Failing positional indices of the numeric data-type check
(`validation_rules.py` lines 39-53): the loop over
`actual_series.dropna().items()` visits the non-null cells at their
original indices in ascending order; a cell fails when numeric coercion
fails, or — for expected type `int` — when the coerced value has a nonzero
fractional remainder (`numeric_value % 1 != 0`, i.e. denominator ≠ 1). -/
def dtFailedIndices (col : List Cell) (isInt : Bool) : List ℕ :=
  (List.range col.length).filter (fun i =>
    match col.get? i with
    | some c =>
        if c.isNull then false
        else
          match c.toNumeric? with
          | none => true
          | some q => isInt && decide (q.den ≠ 1)
    | none => false)

/-- Underlying pandas dtype of a column in this cell universe, modelling
the dtype inference of `pd.read_excel`/`pd.DataFrame`: any text cell makes
the column `object`; otherwise all-integral-and-non-null is `int64`; any
null or fractional value makes it `float64`.  (Only the `object`/`str` and
`bool` branches of `check_data_type` consult it; no claim depends on those
branches.) -/
def dtypeOf (col : List Cell) : String :=
  if col.any (fun c => match c with | Cell.text _ => true | _ => false) then
    "object"
  else if col.all (fun c => match c with
      | Cell.num q => decide (q.den = 1)
      | _ => false) then
    "int64"
  else "float64"

/-- Rule `check_data_type` (`validation_rules.py` lines 26-78).  The model
has no boolean cells, so `is_bool_dtype` is never satisfied, mirroring
that nothing in the claims exercises the `bool` branch. -/
def checkDataType (df? : Option DataFrame) (column : String) (expected : String) : Result :=
  match df? with
  | none =>
      { rule := "check_data_type", status := "skipped", column := some column,
        details := some ("DataFrame not loaded") }
  | some df =>
      match colLookup df column with
      | none =>
          { rule := "check_data_type", status := "skipped", column := some column,
            details := some ("Column not found") }
      | some col =>
          let elc := strLower expected
          if elc == "int" || elc == "float" then
            let fi := dtFailedIndices col (elc == "int")
            if fi.isEmpty then
              { rule := "check_data_type", status := "passed", column := some column }
            else
              { rule := "check_data_type", status := "failed", column := some column,
                details := some ("Expected type \x27" ++ expected ++
                  "\x27, but non-numeric or non-integer values found at indices " ++
                  pyNatList fi ++ ".") }
          else if elc == "object" || elc == "str" then
            if dtypeOf col == "object" ||
                (col.filter (fun c => !c.isNull)).all
                  (fun c => match c with | Cell.text _ => true | _ => false) then
              { rule := "check_data_type", status := "passed", column := some column }
            else
              { rule := "check_data_type", status := "failed", column := some column,
                details := some ("Expected type \x27" ++ expected ++
                  "\x27, but found \x27" ++ dtypeOf col ++ "\x27.") }
          else if elc == "bool" then
            { rule := "check_data_type", status := "failed", column := some column,
              details := some ("Expected type \x27bool\x27, but found \x27" ++
                dtypeOf col ++ "\x27.") }
          else
            { rule := "check_data_type", status := "failed", column := some column,
              details := some ("Expected type \x27" ++ expected ++
                "\x27 is not supported.") }

/-- Indices of the mask `actual_series.notnull() & numeric_series.isnull()`
(`validation_rules.py` lines 94-97): non-null cells whose numeric coercion
failed. -/
def nonNumericIndices (col : List Cell) : List ℕ :=
  (List.range col.length).filter (fun i =>
    match col.get? i with
    | some c => !c.isNull && c.toNumeric?.isNone
    | none => false)

/-- Indices of `numeric_series[numeric_series < min_value]`
(`validation_rules.py` line 103): cells whose coerced value is strictly
below the minimum (a NaN — null or failed coercion — compares false). -/
def belowMinIndices (col : List Cell) (m : ℚ) : List ℕ :=
  (List.range col.length).filter (fun i =>
    match col.get? i with
    | some c =>
        match c.toNumeric? with
        | some q => decide (q < m)
        | none => false
    | none => false)

/-- Indices of `numeric_series[numeric_series > max_value]`
(`validation_rules.py` line 107): cells whose coerced value is strictly
above the maximum. -/
def aboveMaxIndices (col : List Cell) (m : ℚ) : List ℕ :=
  (List.range col.length).filter (fun i =>
    match col.get? i with
    | some c =>
        match c.toNumeric? with
        | some q => decide (m < q)
        | none => false
    | none => false)

/-- Whether `pd.api.types.is_numeric_dtype(numeric_series.dtype)` holds for
the series `pd.to_numeric(actual_series, errors="coerce")`
(`validation_rules.py` line 101).  For columns of numbers, text and nulls —
the whole cell universe of these tables — `to_numeric` with coercion always
produces an `int64`/`float64` series (failed coercions and nulls become
NaN floats), so the test is constantly true, and the `elif` branch at line
110 of the source is unreachable for such columns. -/
def coercedIsNumericDtype (_col : List Cell) : Bool := true

/-- Rule `check_range` (`validation_rules.py` lines 81-116). -/
def checkRange (df? : Option DataFrame) (column : String)
    (minValue maxValue : Option ℚ) : Result :=
  match df? with
  | none =>
      { rule := "check_range", status := "skipped", column := some column,
        details := some ("DataFrame not loaded") }
  | some df =>
      match colLookup df column with
      | none =>
          { rule := "check_range", status := "skipped", column := some column,
            details := some ("Column not found") }
      | some col =>
          let fail1 : List String :=
            if (nonNumericIndices col).isEmpty then []
            else ["Column \x27" ++ column ++
              "\x27 contains non-numeric values that prevent range check at indices " ++
              pyNatList (nonNumericIndices col) ++ "."]
          let fail2 : List String :=
            if coercedIsNumericDtype col then
              (match minValue with
               | some m =>
                   if (belowMinIndices col m).isEmpty then []
                   else ["Values below minimum (" ++ ratRepr m ++
                     ") found at indices: " ++ pyNatList (belowMinIndices col m)]
               | none => []) ++
              (match maxValue with
               | some m =>
                   if (aboveMaxIndices col m).isEmpty then []
                   else ["Values above maximum (" ++ ratRepr m ++
                     ") found at indices: " ++ pyNatList (aboveMaxIndices col m)]
               | none => [])
            else if (nonNumericIndices col).isEmpty then
              ["Column \x27" ++ column ++ "\x27 is not numeric and cannot be checked for range."]
            else []
          let failures := fail1 ++ fail2
          if failures.isEmpty then
            { rule := "check_range", status := "passed", column := some column }
          else
            { rule := "check_range", status := "failed", column := some column,
              details := some (String.intercalate ("; ") failures) }

/-- Worker for `pandasUnique`: emits each value of the list not already
seen, accumulating seen values. -/
def pandasUniqueAux : List Cell → List Cell → List Cell
  | _, [] => []
  | seen, x :: xs =>
      if x ∈ seen then pandasUniqueAux seen xs
      else x :: pandasUniqueAux (x :: seen) xs

/-- First-occurrence de-duplication, modelling `Series.unique()` (pandas
keeps the first occurrence of each value, in order; its hash-based
equality treats NaN cells as equal to each other, as does `Cell` equality
on `Cell.null`). -/
def pandasUnique (l : List Cell) : List Cell :=
  pandasUniqueAux [] l

/-- The list `df[column][df[column].duplicated(keep=False)].unique().tolist()`
(`validation_rules.py` line 128): the values occurring at least twice in
the full column (nulls included, since pandas `duplicated` hashes NaN
cells as equal), de-duplicated keeping first occurrences in order. -/
def duplicatedValues (col : List Cell) : List Cell :=
  pandasUnique (col.filter (fun v => 2 ≤ col.count v))

/-- Rule `check_unique_values` (`validation_rules.py` lines 118-131).  The
failure test `df[column].dropna().duplicated().any()` holds exactly when
the non-null cells are not pairwise distinct. -/
def checkUniqueValues (df? : Option DataFrame) (column : String) : Result :=
  match df? with
  | none =>
      { rule := "check_unique_values", status := "skipped", column := some column,
        details := some ("DataFrame not loaded") }
  | some df =>
      match colLookup df column with
      | none =>
          { rule := "check_unique_values", status := "skipped", column := some column,
            details := some ("Column not found") }
      | some col =>
          if (col.filter (fun c => !c.isNull)).Nodup then
            { rule := "check_unique_values", status := "passed", column := some column }
          else
            { rule := "check_unique_values", status := "failed", column := some column,
              details := some ("Duplicate values found in column \x27" ++ column ++
                "\x27. Duplicated values (showing first occurrence): " ++
                pyCellList (duplicatedValues col)) }

/-- The validation configuration (`validation_config` dict of
`ExcelValidator`).  Each field is `some _` exactly when the corresponding
key is present; the per-column dicts become ordered association lists
(Python dicts preserve insertion order and have unique keys). -/
structure Config where
  expected_columns : Option (List String) := none
  check_missing_values : Option Bool := none
  column_types : Option (List (String × String)) := none
  check_unique_values : Option (List String) := none
  column_ranges : Option (List (String × Option ℚ × Option ℚ)) := none
deriving DecidableEq

/-- The Validation Session: the mutable state of an `ExcelValidator`
instance that `validate_data` reads and writes (`self.df`,
`self.validation_config`, `self.detailed_results`). -/
structure Session where
  df : Option DataFrame
  config : Config
  detailed_results : List Result
deriving DecidableEq

/-- The load record inserted by `validate_data` when the table was never
loaded (`excel_validator.py` line 58). -/
def failedLoadRecord : Result :=
  { rule := "load_excel", status := "failed",
    details := some ("DataFrame not loaded before validation.") }

/-- A `skipped` placeholder record carrying the "DataFrame not loaded"
detail, as `_add_skipped_results_for_config` builds them. -/
def skipRecord (rule : String) (column : Option String) : Result :=
  { rule := rule, status := "skipped", column := column,
    details := some ("DataFrame not loaded") }

/-- Group of `_add_skipped_results_for_config` for `expected_columns`
(`excel_validator.py` lines 102-103). -/
def skipColNamesSeg (cfg : Config) (current : List Result) : List Result :=
  match cfg.expected_columns with
  | some _ =>
      if current.any (fun r => r.rule == "check_column_names") then []
      else [skipRecord ("check_column_names") none]
  | none => []

/-- Group of `_add_skipped_results_for_config` for `check_missing_values`
(`excel_validator.py` lines 104-105). -/
def skipMissingSeg (cfg : Config) (current : List Result) : List Result :=
  match cfg.check_missing_values with
  | some b =>
      if b && !(current.any (fun r => r.rule == "check_missing_values")) then
        [skipRecord ("check_missing_values") none]
      else []
  | none => []

/-- Group of `_add_skipped_results_for_config` for `column_types`
(`excel_validator.py` lines 106-109). -/
def skipTypesSeg (cfg : Config) (current : List Result) : List Result :=
  match cfg.column_types with
  | some ts =>
      ts.filterMap (fun p =>
        if current.any (fun r => r.rule == "check_data_type" && r.column == some p.1) then
          none
        else some (skipRecord ("check_data_type") (some p.1)))
  | none => []

/-- Group of `_add_skipped_results_for_config` for `check_unique_values`
(`excel_validator.py` lines 110-113). -/
def skipUniqueSeg (cfg : Config) (current : List Result) : List Result :=
  match cfg.check_unique_values with
  | some us =>
      us.filterMap (fun c =>
        if current.any (fun r => r.rule == "check_unique_values" && r.column == some c) then
          none
        else some (skipRecord ("check_unique_values") (some c)))
  | none => []

/-- Group of `_add_skipped_results_for_config` for `column_ranges`
(`excel_validator.py` lines 114-117). -/
def skipRangesSeg (cfg : Config) (current : List Result) : List Result :=
  match cfg.column_ranges with
  | some rs =>
      rs.filterMap (fun p =>
        if current.any (fun r => r.rule == "check_range" && r.column == some p.1) then
          none
        else some (skipRecord ("check_range") (some p.1)))
  | none => []

/-- Helper `_add_skipped_results_for_config` (`excel_validator.py` lines
96-117): the records it appends to `current`.  The Python code freezes the
sets `existing_rules` / `existing_column_rules` from the list as it stood
on entry, so every guard queries `current`, never the records already
emitted by an earlier group. -/
def addSkippedResultsForConfig (cfg : Config) (current : List Result) : List Result :=
  skipColNamesSeg cfg current ++ skipMissingSeg cfg current ++
  skipTypesSeg cfg current ++ skipUniqueSeg cfg current ++
  skipRangesSeg cfg current

/-- Record group for `expected_columns` in the loaded path of
`validate_data` (`excel_validator.py` lines 64-66). -/
def colNamesSeg (df : DataFrame) (cfg : Config) : List Result :=
  match cfg.expected_columns with
  | some ec => [checkColumnNames (some df) ec]
  | none => []

/-- Record group for `check_missing_values` in the loaded path
(`excel_validator.py` lines 69-71). -/
def missingSeg (df : DataFrame) (cfg : Config) : List Result :=
  match cfg.check_missing_values with
  | some b => if b then [checkMissingValues (some df)] else []
  | none => []

/-- Record group for `column_types` in the loaded path
(`excel_validator.py` lines 74-77). -/
def typesSeg (df : DataFrame) (cfg : Config) : List Result :=
  match cfg.column_types with
  | some ts => ts.map (fun p => checkDataType (some df) p.1 p.2)
  | none => []

/-- Record group for `check_unique_values` in the loaded path
(`excel_validator.py` lines 79-82). -/
def uniqueSeg (df : DataFrame) (cfg : Config) : List Result :=
  match cfg.check_unique_values with
  | some us => us.map (fun c => checkUniqueValues (some df) c)
  | none => []

/-- Record group for `column_ranges` in the loaded path
(`excel_validator.py` lines 85-88). -/
def rangesSeg (df : DataFrame) (cfg : Config) : List Result :=
  match cfg.column_ranges with
  | some rs => rs.map (fun p => checkRange (some df) p.1 p.2.1 p.2.2)
  | none => []

/-- The Outcome Records produced by the loaded path of `validate_data`
(`excel_validator.py` lines 64-88), in the fixed source order of rule
groups and, within a group, configuration order. -/
def ruleResults (df : DataFrame) (cfg : Config) : List Result :=
  colNamesSeg df cfg ++ missingSeg df cfg ++ typesSeg df cfg ++
  uniqueSeg df cfg ++ rangesSeg df cfg

/-- Aggregate pass/fail over the accumulated records (`excel_validator.py`
line 92). -/
def overallPassed (results : List Result) : Bool :=
  !(results.any (fun r => r.status == "failed"))

/-- Method `ExcelValidator.validate_data` (`excel_validator.py` lines
47-94): keep the first `load_excel` record, drop everything else, then
either emit skip placeholders (table absent; inserting a failed load
record first when none was carried over) or run every configured rule.
Returns the boolean result together with the updated session. -/
def validateData (s : Session) : Bool × Session :=
  let loadRes := s.detailed_results.find? (fun r => r.rule == "load_excel")
  match s.df with
  | none =>
      let base : List Result :=
        match loadRes with
        | some r => [r]
        | none => [failedLoadRecord]
      let results := base ++ addSkippedResultsForConfig s.config base
      (false, { s with detailed_results := results })
  | some df =>
      let base : List Result :=
        match loadRes with
        | some r => [r]
        | none => []
      let results := base ++ ruleResults df s.config
      (overallPassed results, { s with detailed_results := results })

/-- Loop body of the inner scan of `main.find_duplicates` (`main.py`
lines 33-37): at index `j`, skip a null name, otherwise emit the pair
`(i, j, name_i, name_j)` when the similarity similarity of the stringified
names strictly exceeds 90. -/
def findDupCandidate (similarity : String → String → ℕ) (names : List Cell)
    (i : ℕ) (a : Cell) (j : ℕ) : Option (ℕ × ℕ × Cell × Cell) :=
  match names.get? j with
  | none => none
  | some b =>
      if b.isNull then none
      else if 90 < similarity a.toText b.toText then some (i, j, a, b)
      else none

/-- Inner loop of `main.find_duplicates` (`main.py` lines 32-37): for a
fixed non-null name at index `i`, scan `j in range(i+1, n)`. -/
def findDupInner (similarity : String → String → ℕ) (names : List Cell)
    (i : ℕ) (a : Cell) : List (ℕ × ℕ × Cell × Cell) :=
  (List.range' (i + 1) (names.length - (i + 1))).filterMap
    (findDupCandidate similarity names i a)

/-- Outer loop body of `main.find_duplicates` (`main.py` lines 29-31):
skip a null name at index `i`, otherwise run the inner scan. -/
def findDupOuter (similarity : String → String → ℕ) (names : List Cell)
    (i : ℕ) : List (ℕ × ℕ × Cell × Cell) :=
  match names.get? i with
  | none => []
  | some a => if a.isNull then [] else findDupInner similarity names i a

/-- Method `main.find_duplicates` (`main.py` lines 27-38), on the `Name`
column it iterates.  The similarity metric of the fuzzywuzzy library is an external
library function, taken here as an abstract parameter. -/
def findDuplicates (similarity : String → String → ℕ) (names : List Cell) :
    List (ℕ × ℕ × Cell × Cell) :=
  (List.range names.length).flatMap (findDupOuter similarity names)

/-- Method `main.find_duplicates` at the data-frame level: the very first
statement `enumerate(df[\x27Name\x27])` looks the column up, which raises
`KeyError` when the table has no `Name` column; fallible code returns
`Except`. -/
def findDuplicatesDF (similarity : String → String → ℕ) (df : DataFrame) :
    Except String (List (ℕ × ℕ × Cell × Cell)) :=
  match colLookup df ("Name") with
  | none => Except.error ("KeyError: \x27Name\x27")
  | some names => Except.ok (findDuplicates similarity names)

/-- Code-point lexicographic comparison on character lists, matching
Python string `<`. -/
def charListLt : List Char → List Char → Bool
  | [], [] => false
  | [], _ :: _ => true
  | _ :: _, [] => false
  | a :: as, b :: bs =>
      if a < b then true else if b < a then false else charListLt as bs

/-- Python `s < t` on strings. -/
def strLtB (s t : String) : Bool :=
  charListLt s.data t.data

/-- The sort key `(x["status"], x["rule"], x.get("column", ""))` of
`generate_report` (`excel_validator.py` line 142), compared as Python
compares tuples: lexicographically, non-strictly (for a stable ascending
sort). -/
def reportKeyLe (a b : Result) : Bool :=
  if strLtB a.status b.status then true
  else if strLtB b.status a.status then false
  else if strLtB a.rule b.rule then true
  else if strLtB b.rule a.rule then false
  else !(strLtB (b.column.getD ("")) (a.column.getD ("")))

/-- Stable insertion of one element into a sorted list. -/
def insertSorted (le : Result → Result → Bool) (x : Result) :
    List Result → List Result
  | [] => [x]
  | y :: ys => if le x y then x :: y :: ys else y :: insertSorted le x ys

/-- Stable ascending sort, modelling Python `sorted` with a key. -/
def stableSort (le : Result → Result → Bool) : List Result → List Result
  | [] => []
  | x :: xs => insertSorted le x (stableSort le xs)

/-- The `(Column: X)` suffix of a report line (`excel_validator.py` lines
167, 177, 190). -/
def columnInfo (r : Result) : String :=
  match r.column with
  | some c => " (Column: " ++ c ++ ")"
  | none => ""

/-- A failed or skipped rule line of the report (`excel_validator.py`
lines 166-168 and 189-191). -/
def failedOrSkippedLine (r : Result) : String :=
  "- Rule \x27" ++ r.rule ++ "\x27" ++ columnInfo r ++ ": " ++
    r.details.getD ("No specific details available.")

/-- A passed rule line of the report (`excel_validator.py` lines 177-180);
Python truthiness makes an absent or empty `details` fall back to the bare
status annotation. -/
def passedLine (r : Result) : String :=
  let detailsInfo :=
    match r.details with
    | some d => if d != "" && d != "File loaded successfully." then ": " ++ d else ""
    | none => ""
  let statusInfo := if detailsInfo == "" then " (status: passed)" else ""
  "- Rule \x27" ++ r.rule ++ "\x27" ++ columnInfo r ++ detailsInfo ++ statusInfo

/-- The report string built by `ExcelValidator.generate_report`
(`excel_validator.py` lines 131-196) from the accumulated records: title,
overall status, the load record first, then the failed / passed / skipped
sections over the remaining records sorted by `reportKeyLe`, then the
closing marker. -/
def renderReport (results : List Result) : String :=
  if results.isEmpty then
    "No validation results available. Run load_excel and validate_data first."
  else
    let loadRes := results.find? (fun r => r.rule == "load_excel")
    let other := stableSort reportKeyLe
      (results.filter (fun r => r.rule != "load_excel"))
    let failedR := other.filter (fun r => r.status == "failed")
    let passedR := other.filter (fun r => r.status == "passed")
    let skippedR := other.filter (fun r => r.status == "skipped")
    let overall := if results.any (fun r => r.status == "failed") then "FAILED" else "PASSED"
    let l0 : List String := ["--- Validation Report ---", "\nOverall Status: " ++ overall ++ "\n"]
    let l1 : List String :=
      match loadRes with
      | some r =>
          ("- Rule \x27" ++ r.rule ++ "\x27 (status: " ++ r.status ++ "): " ++
            r.details.getD ("No specific details available.")) ::
          (if other.isEmpty then [] else [""])
      | none => []
    let l2 : List String :=
      if failedR.isEmpty then []
      else ("Failed Rules:" :: failedR.map failedOrSkippedLine) ++
        (if passedR.isEmpty && skippedR.isEmpty then [] else [""])
    let l3 : List String :=
      if passedR.isEmpty then []
      else ("Passed Rules:" :: passedR.map passedLine) ++
        (if skippedR.isEmpty then [] else [""])
    let l4 : List String :=
      if skippedR.isEmpty then []
      else "Skipped Rules:" :: skippedR.map failedOrSkippedLine
    String.intercalate ("\n") (l0 ++ l1 ++ l2 ++ l3 ++ l4 ++ ["--- End of Report ---"])

/-- Method `ExcelValidator.generate_report` called without an output path:
it renders the accumulated records and touches no session state (the
source deliberately refrains from appending to `detailed_results` there).
The returned pair is the report string and the session after the call. -/
def generateReport (s : Session) : String × Session :=
  (renderReport s.detailed_results, s)

/-- Modelled from the spec (section 4.8): the skip placeholders expected
after a `validate` in the `load_failed`/unloaded state — "for every rule
referenced in the configuration (by presence of its configuration key,
iterating each configured column individually for column-scoped rules),
append a `skipped` Outcome Record (\x22DataFrame not loaded\x22)", in the
fixed group order of the source.  Stated separately from
`addSkippedResultsForConfig` so that the guarded appends of the code can
be compared against the unconditional enumeration of the spec.  This is its
skip placeholder group for `expected_columns`. -/
def specColNamesSeg (cfg : Config) : List Result :=
  match cfg.expected_columns with
  | some _ => [skipRecord ("check_column_names") none]
  | none => []

/-- Spec skip placeholder group for `check_missing_values`. -/
def specMissingSeg (cfg : Config) : List Result :=
  match cfg.check_missing_values with
  | some b => if b then [skipRecord ("check_missing_values") none] else []
  | none => []

/-- Spec skip placeholder group for `column_types`. -/
def specTypesSeg (cfg : Config) : List Result :=
  match cfg.column_types with
  | some ts => ts.map (fun p => skipRecord ("check_data_type") (some p.1))
  | none => []

/-- Spec skip placeholder group for `check_unique_values`. -/
def specUniqueSeg (cfg : Config) : List Result :=
  match cfg.check_unique_values with
  | some us => us.map (fun c => skipRecord ("check_unique_values") (some c))
  | none => []

/-- Spec skip placeholder group for `column_ranges`. -/
def specRangesSeg (cfg : Config) : List Result :=
  match cfg.column_ranges with
  | some rs => rs.map (fun p => skipRecord ("check_range") (some p.1))
  | none => []

/-- The full spec-side skip placeholder list, in the source group
order. -/
def skippedSpec (cfg : Config) : List Result :=
  specColNamesSeg cfg ++ specMissingSeg cfg ++ specTypesSeg cfg ++
  specUniqueSeg cfg ++ specRangesSeg cfg

/-- Number of Outcome Records for a column-less rule in a record list. -/
def countRule (out : List Result) (rule : String) : ℕ :=
  out.countP (fun r => r.rule == rule)

/-- Number of Outcome Records for a given rule/column pair in a record
list. -/
def countRuleCol (out : List Result) (rule : String) (c : String) : ℕ :=
  out.countP (fun r => r.rule == rule && r.column == some c)

/-- A small concrete configuration exercising every rule group, used to
instantiate universally quantified theorems. -/
def exampleConfig : Config :=
  { expected_columns := some ["ID"],
    check_missing_values := some true,
    column_types := some [("ID", "int")],
    check_unique_values := some ["ID"],
    column_ranges := some [("ID", some 0, some 5)] }

/-- A small concrete session with a loaded one-column table and
`exampleConfig`. -/
def exampleSession : Session :=
  { df := some [("ID", [Cell.num 1])],
    config := exampleConfig,
    detailed_results := [] }

section Lemmas

/-- Every record `check_column_names` returns carries that rule name and
no column. -/
theorem checkColumnNames_rule (df? : Option DataFrame) (ec : List String) :
    (checkColumnNames df? ec).rule = "check_column_names" ∧
    (checkColumnNames df? ec).column = none := by
  cases df? with
  | none => exact ⟨rfl, rfl⟩
  | some df =>
      simp only [checkColumnNames]
      repeat' split
      all_goals exact ⟨rfl, rfl⟩

/-- Every record `check_missing_values` returns carries that rule name and
no column. -/
theorem checkMissingValues_rule (df? : Option DataFrame) :
    (checkMissingValues df?).rule = "check_missing_values" ∧
    (checkMissingValues df?).column = none := by
  cases df? with
  | none => exact ⟨rfl, rfl⟩
  | some df =>
      simp only [checkMissingValues]
      repeat' split
      all_goals exact ⟨rfl, rfl⟩

/-- Every record `check_data_type` returns carries that rule name and the
checked column. -/
theorem checkDataType_rule (df? : Option DataFrame) (c t : String) :
    (checkDataType df? c t).rule = "check_data_type" ∧
    (checkDataType df? c t).column = some c := by
  cases df? with
  | none => exact ⟨rfl, rfl⟩
  | some df =>
      simp only [checkDataType]
      repeat' split
      all_goals exact ⟨rfl, rfl⟩

/-- Every record `check_unique_values` returns carries that rule name and
the checked column. -/
theorem checkUniqueValues_rule (df? : Option DataFrame) (c : String) :
    (checkUniqueValues df? c).rule = "check_unique_values" ∧
    (checkUniqueValues df? c).column = some c := by
  cases df? with
  | none => exact ⟨rfl, rfl⟩
  | some df =>
      simp only [checkUniqueValues]
      repeat' split
      all_goals exact ⟨rfl, rfl⟩

/-- Every record `check_range` returns carries that rule name and the
checked column. -/
theorem checkRange_rule (df? : Option DataFrame) (c : String)
    (mn mx : Option ℚ) :
    (checkRange df? c mn mx).rule = "check_range" ∧
    (checkRange df? c mn mx).column = some c := by
  cases df? with
  | none => exact ⟨rfl, rfl⟩
  | some df =>
      simp only [checkRange]
      repeat' split
      all_goals exact ⟨rfl, rfl⟩

/-- Membership in a filtered index range. -/
theorem mem_filter_range {n : ℕ} {p : ℕ → Bool} {i : ℕ} :
    i ∈ (List.range n).filter p ↔ i < n ∧ p i = true := by
  simp [List.mem_filter, List.mem_range]

/-- An index below the length of a list retrieves some element. -/
theorem lt_length_of_get?_eq_some {α : Type _} {l : List α} {i : ℕ} {a : α}
    (h : l.get? i = some a) : i < l.length := by
  by_contra hn
  rw [List.get?_eq_none.mpr (Nat.le_of_not_lt hn)] at h
  exact Option.noConfusion h

/-- The below-minimum index list collects exactly the cells whose coerced
value is strictly below the minimum. -/
theorem mem_belowMinIndices {col : List Cell} {m : ℚ} {i : ℕ} :
    i ∈ belowMinIndices col m ↔
      ∃ c q, col.get? i = some c ∧ c.toNumeric? = some q ∧ q < m := by
  unfold belowMinIndices
  rw [mem_filter_range]
  constructor
  · rintro ⟨hi, hp⟩
    cases hc : col.get? i with
    | none => rw [hc] at hp; exact absurd hp (by simp)
    | some c =>
        rw [hc] at hp
        dsimp only at hp
        cases hq : c.toNumeric? with
        | none => rw [hq] at hp; exact absurd hp (by simp)
        | some q =>
            rw [hq] at hp
            exact ⟨c, q, rfl, hq, by simpa using hp⟩
  · rintro ⟨c, q, hc, hq, hlt⟩
    refine ⟨lt_length_of_get?_eq_some hc, ?_⟩
    rw [hc]
    dsimp only
    rw [hq]
    simpa using hlt

/-- The above-maximum index list collects exactly the cells whose coerced
value is strictly above the maximum. -/
theorem mem_aboveMaxIndices {col : List Cell} {m : ℚ} {i : ℕ} :
    i ∈ aboveMaxIndices col m ↔
      ∃ c q, col.get? i = some c ∧ c.toNumeric? = some q ∧ m < q := by
  unfold aboveMaxIndices
  rw [mem_filter_range]
  constructor
  · rintro ⟨hi, hp⟩
    cases hc : col.get? i with
    | none => rw [hc] at hp; exact absurd hp (by simp)
    | some c =>
        rw [hc] at hp
        dsimp only at hp
        cases hq : c.toNumeric? with
        | none => rw [hq] at hp; exact absurd hp (by simp)
        | some q =>
            rw [hq] at hp
            exact ⟨c, q, rfl, hq, by simpa using hp⟩
  · rintro ⟨c, q, hc, hq, hlt⟩
    refine ⟨lt_length_of_get?_eq_some hc, ?_⟩
    rw [hc]
    dsimp only
    rw [hq]
    simpa using hlt

/-- The non-numeric index list collects exactly the non-null cells whose
numeric coercion fails. -/
theorem mem_nonNumericIndices {col : List Cell} {i : ℕ} :
    i ∈ nonNumericIndices col ↔
      ∃ c, col.get? i = some c ∧ c.isNull = false ∧ c.toNumeric? = none := by
  unfold nonNumericIndices
  rw [mem_filter_range]
  constructor
  · rintro ⟨hi, hp⟩
    cases hc : col.get? i with
    | none => rw [hc] at hp; exact absurd hp (by simp)
    | some c =>
        rw [hc] at hp
        dsimp only at hp
        refine ⟨c, rfl, ?_, ?_⟩
        · cases h : c.isNull with
          | false => rfl
          | true => rw [h] at hp; exact absurd hp (by simp)
        · cases h : c.toNumeric? with
          | none => rfl
          | some q => rw [h] at hp; revert hp; simp
  · rintro ⟨c, hc, hnull, hq⟩
    refine ⟨lt_length_of_get?_eq_some hc, ?_⟩
    rw [hc]
    dsimp only
    rw [hnull, hq]
    rfl

/-- The failing index list of the numeric data-type check collects exactly
the non-null cells that fail coercion or — under expected type `int` —
coerce to a value with nonzero fractional remainder. -/
theorem mem_dtFailedIndices {col : List Cell} {isInt : Bool} {i : ℕ} :
    i ∈ dtFailedIndices col isInt ↔
      ∃ c, col.get? i = some c ∧ c.isNull = false ∧
        (c.toNumeric? = none ∨
          (isInt = true ∧ ∃ q, c.toNumeric? = some q ∧ q.den ≠ 1)) := by
  unfold dtFailedIndices
  rw [mem_filter_range]
  constructor
  · rintro ⟨hi, hp⟩
    cases hc : col.get? i with
    | none => rw [hc] at hp; exact absurd hp (by simp)
    | some c =>
        rw [hc] at hp
        dsimp only at hp
        cases hnull : c.isNull with
        | true => rw [hnull] at hp; exact absurd hp (by simp)
        | false =>
            rw [hnull] at hp
            simp only [Bool.false_eq_true, if_false] at hp
            refine ⟨c, rfl, hnull, ?_⟩
            cases hq : c.toNumeric? with
            | none => exact Or.inl rfl
            | some q =>
                rw [hq] at hp
                rcases (Bool.and_eq_true ..).mp hp with ⟨h1, h2⟩
                exact Or.inr ⟨h1, q, rfl, of_decide_eq_true h2⟩
  · rintro ⟨c, hc, hnull, hcase⟩
    refine ⟨lt_length_of_get?_eq_some hc, ?_⟩
    rw [hc]
    dsimp only
    rw [hnull]
    simp only [Bool.false_eq_true, if_false]
    rcases hcase with hq | ⟨hInt, q, hq, hden⟩
    · rw [hq]
    · rw [hq, hInt]; simpa using hden

/-- The worker `pandasUniqueAux` emits exactly the unseen values of the list. -/
theorem mem_pandasUniqueAux {a : Cell} {seen l : List Cell} :
    a ∈ pandasUniqueAux seen l ↔ a ∈ l ∧ a ∉ seen := by
  induction l generalizing seen with
  | nil => simp [pandasUniqueAux]
  | cons x xs ih =>
      by_cases hx : x ∈ seen
      · rw [pandasUniqueAux, if_pos hx, ih]
        constructor
        · rintro ⟨h, hs⟩
          exact ⟨List.mem_cons_of_mem _ h, hs⟩
        · rintro ⟨h, hs⟩
          rcases List.mem_cons.mp h with h | h
          · exact absurd (h ▸ hx) hs
          · exact ⟨h, hs⟩
      · rw [pandasUniqueAux, if_neg hx]
        constructor
        · intro h
          rcases List.mem_cons.mp h with h | h
          · exact ⟨h ▸ List.mem_cons_self _ _, h ▸ hx⟩
          · rcases ih.mp h with ⟨h1, h2⟩
            exact ⟨List.mem_cons_of_mem _ h1,
              fun hs => h2 (List.mem_cons_of_mem _ hs)⟩
        · rintro ⟨h, hs⟩
          rcases List.mem_cons.mp h with h | h
          · exact h ▸ List.mem_cons_self _ _
          · by_cases hax : a = x
            · exact hax ▸ List.mem_cons_self _ _
            · refine List.mem_cons_of_mem _ (ih.mpr ⟨h, fun hm => ?_⟩)
              rcases List.mem_cons.mp hm with hm | hm
              · exact hax hm
              · exact hs hm

/-- The worker `pandasUniqueAux` lists each value at most once. -/
theorem nodup_pandasUniqueAux (seen l : List Cell) :
    (pandasUniqueAux seen l).Nodup := by
  induction l generalizing seen with
  | nil => simp [pandasUniqueAux]
  | cons x xs ih =>
      by_cases hx : x ∈ seen
      · rw [pandasUniqueAux, if_pos hx]
        exact ih seen
      · rw [pandasUniqueAux, if_neg hx]
        refine List.nodup_cons.mpr ⟨?_, ih _⟩
        intro hmem
        exact (mem_pandasUniqueAux.mp hmem).2 (List.mem_cons_self _ _)

/-- Function `pandasUnique` keeps exactly the values of the original list. -/
theorem mem_pandasUnique {a : Cell} {l : List Cell} :
    a ∈ pandasUnique l ↔ a ∈ l := by
  rw [pandasUnique, mem_pandasUniqueAux]
  simp

/-- Function `pandasUnique` lists each value at most once. -/
theorem nodup_pandasUnique (l : List Cell) : (pandasUnique l).Nodup :=
  nodup_pandasUniqueAux [] l

/-- In a duplicate-free list every value occurs once or not at all. -/
theorem count_eq_ite_of_nodup {α : Type _} [DecidableEq α] {l : List α}
    (h : l.Nodup) (a : α) : l.count a = if a ∈ l then 1 else 0 := by
  split
  · exact List.count_eq_one_of_mem h (by assumption)
  · exact List.count_eq_zero_of_not_mem (by assumption)

/-- A pairwise property transfers through `filterMap` along a pairwise
property of the scanned list. -/
theorem pairwise_filterMap_of {α β : Type _} {R : β → β → Prop}
    {S : α → α → Prop} {l : List α} {g : α → Option β}
    (hS : l.Pairwise S)
    (h : ∀ a b, S a b → ∀ x, g a = some x → ∀ y, g b = some y → R x y) :
    (l.filterMap g).Pairwise R := by
  induction l with
  | nil => simp
  | cons hd tl ih =>
      rcases List.pairwise_cons.mp hS with ⟨hhd, htl⟩
      rw [List.filterMap_cons]
      cases hg : g hd with
      | none => exact ih htl
      | some x =>
          refine List.pairwise_cons.mpr ⟨?_, ih htl⟩
          intro y hy
          rcases List.mem_filterMap.mp hy with ⟨b, hb, hyb⟩
          exact h hd b (hhd b hb) x hg y hyb

/-- A pairwise property transfers through `flatMap` when each block is
pairwise and blocks relate across a pairwise property of the scanned
list. -/
theorem pairwise_flatMap_of {α β : Type _} {R : β → β → Prop}
    {S : α → α → Prop} {l : List α} {f : α → List β}
    (hS : l.Pairwise S)
    (hin : ∀ a ∈ l, (f a).Pairwise R)
    (hcross : ∀ a b, S a b → ∀ x ∈ f a, ∀ y ∈ f b, R x y) :
    (l.flatMap f).Pairwise R := by
  induction l with
  | nil => simp
  | cons hd tl ih =>
      rw [List.flatMap_cons]
      rcases List.pairwise_cons.mp hS with ⟨hhd, htl⟩
      refine List.pairwise_append.mpr
        ⟨hin hd (List.mem_cons_self _ _),
         ih htl (fun a ha => hin a (List.mem_cons_of_mem _ ha)), ?_⟩
      intro x hx y hy
      rcases List.mem_flatMap.mp hy with ⟨b, hb, hyb⟩
      exact hcross hd b (hhd b hb) x hx y hyb

/-- The inner loop body emits a pair exactly when the name at `j` is
present, non-null and similar enough. -/
theorem findDupCandidate_some_iff {similarity : String → String → ℕ}
    {names : List Cell} {i j : ℕ} {a : Cell} {x : ℕ × ℕ × Cell × Cell} :
    findDupCandidate similarity names i a j = some x ↔
      ∃ b, names.get? j = some b ∧ b.isNull = false ∧
        90 < similarity a.toText b.toText ∧ x = (i, j, a, b) := by
  unfold findDupCandidate
  constructor
  · intro h
    cases hb : names.get? j with
    | none => rw [hb] at h; exact absurd h (by simp)
    | some b =>
        rw [hb] at h
        dsimp only at h
        by_cases hnull : b.isNull
        · rw [if_pos hnull] at h; exact absurd h (by simp)
        · rw [if_neg hnull] at h
          by_cases hr : 90 < similarity a.toText b.toText
          · rw [if_pos hr] at h
            exact ⟨b, rfl, Bool.eq_false_iff.mpr hnull, hr,
              (Option.some.inj h).symm⟩
          · rw [if_neg hr] at h; exact absurd h (by simp)
  · rintro ⟨b, hb, hnull, hr, rfl⟩
    rw [hb]
    dsimp only
    rw [if_neg (by simp [hnull]), if_pos hr]

/-- Membership in the inner scan of `find_duplicates`. -/
theorem mem_findDupInner {similarity : String → String → ℕ} {names : List Cell}
    {i : ℕ} {a : Cell} {x : ℕ × ℕ × Cell × Cell} :
    x ∈ findDupInner similarity names i a ↔
      ∃ j b, x = (i, j, a, b) ∧ i < j ∧ names.get? j = some b ∧
        b.isNull = false ∧ 90 < similarity a.toText b.toText := by
  unfold findDupInner
  rw [List.mem_filterMap]
  constructor
  · rintro ⟨j, hj, hx⟩
    rw [List.mem_range'_1] at hj
    rcases findDupCandidate_some_iff.mp hx with ⟨b, hb, hnull, hr, rfl⟩
    exact ⟨j, b, rfl, Nat.lt_of_succ_le hj.1, hb, hnull, hr⟩
  · rintro ⟨j, b, rfl, hij, hb, hnull, hr⟩
    refine ⟨j, ?_, findDupCandidate_some_iff.mpr ⟨b, hb, hnull, hr, rfl⟩⟩
    rw [List.mem_range'_1]
    have hjn : j < names.length := lt_length_of_get?_eq_some hb
    have hin : i + 1 ≤ names.length := le_of_lt (lt_of_le_of_lt hij hjn)
    exact ⟨Nat.succ_le_of_lt hij, by rw [Nat.add_sub_cancel' hin]; exact hjn⟩

/-- Membership in the outer scan of `find_duplicates`. -/
theorem mem_findDupOuter {similarity : String → String → ℕ} {names : List Cell}
    {i : ℕ} {x : ℕ × ℕ × Cell × Cell} :
    x ∈ findDupOuter similarity names i ↔
      ∃ a, names.get? i = some a ∧ a.isNull = false ∧
        x ∈ findDupInner similarity names i a := by
  unfold findDupOuter
  constructor
  · intro h
    cases ha : names.get? i with
    | none => rw [ha] at h; exact absurd h (by simp)
    | some a =>
        rw [ha] at h
        dsimp only at h
        by_cases hnull : a.isNull
        · rw [if_pos hnull] at h; exact absurd h (by simp)
        · rw [if_neg hnull] at h
          exact ⟨a, rfl, Bool.eq_false_iff.mpr hnull, h⟩
  · rintro ⟨a, ha, hnull, h⟩
    rw [ha]
    dsimp only
    rw [if_neg (by simp [hnull])]
    exact h

/-- Every pair emitted for outer index `i` has first component `i`. -/
theorem findDupOuter_fst {similarity : String → String → ℕ} {names : List Cell}
    {i : ℕ} {x : ℕ × ℕ × Cell × Cell}
    (h : x ∈ findDupOuter similarity names i) : x.1 = i := by
  rcases mem_findDupOuter.mp h with ⟨a, _, _, hin⟩
  rcases mem_findDupInner.mp hin with ⟨j, b, rfl, _⟩
  rfl

/-- Counting a rule/column predicate over a mapped segment whose records
all carry rule `R` and the key as column counts the keys. -/
theorem countP_ruleCol_map {α : Type _} {l : List α} {f : α → Result}
    {R : String} {key : α → String}
    (hf : ∀ a, (f a).rule = R ∧ (f a).column = some (key a)) (c : String) :
    List.countP (fun r => r.rule == R && r.column == some c) (l.map f) =
      List.count c (l.map key) := by
  induction l with
  | nil => rfl
  | cons a as ih =>
      rw [List.map_cons, List.countP_cons, List.map_cons, List.count_cons, ih]
      have hcond : ((f a).rule == R && (f a).column == some c) = (key a == c) := by
        rw [(hf a).1, (hf a).2]
        simp
      rw [hcond]

/-- A rule-only count is zero over a mapped segment of records with a
different rule. -/
theorem countRule_map_zero {α : Type _} {l : List α} {f : α → Result}
    {R : String} (hf : ∀ a, (f a).rule ≠ R) :
    List.countP (fun r => r.rule == R) (l.map f) = 0 := by
  rw [List.countP_map]
  exact List.countP_eq_zero.mpr (fun a _ h => hf a (by simpa using h))

/-- A rule/column count is zero over a mapped segment of records with a
different rule. -/
theorem countRuleCol_map_zero {α : Type _} {l : List α} {f : α → Result}
    {R c : String} (hf : ∀ a, (f a).rule ≠ R) :
    List.countP (fun r => r.rule == R && r.column == some c) (l.map f) = 0 := by
  rw [List.countP_map]
  refine List.countP_eq_zero.mpr (fun a _ h => ?_)
  rcases (Bool.and_eq_true ..).mp h with ⟨h1, _⟩
  exact hf a (by simpa using h1)

/-- A rule-only count is zero over a list of records all with a different
rule. -/
theorem countRule_zero_of_ne {l : List Result} {R : String}
    (h : ∀ r ∈ l, r.rule ≠ R) :
    List.countP (fun r => r.rule == R) l = 0 :=
  List.countP_eq_zero.mpr (fun a ha hp => h a ha (by simpa using hp))

/-- A rule/column count is zero over a list of records all with a
different rule. -/
theorem countRuleCol_zero_of_ne {l : List Result} {R c : String}
    (h : ∀ r ∈ l, r.rule ≠ R) :
    List.countP (fun r => r.rule == R && r.column == some c) l = 0 := by
  refine List.countP_eq_zero.mpr (fun a ha hp => ?_)
  rcases (Bool.and_eq_true ..).mp hp with ⟨h1, _⟩
  exact h a ha (by simpa using h1)

/-- Projection form of `checkColumnNames_rule` for rewriting. -/
theorem checkColumnNames_rule_eq (df? : Option DataFrame) (ec : List String) :
    (checkColumnNames df? ec).rule = "check_column_names" :=
  (checkColumnNames_rule df? ec).1

/-- Projection form of `checkMissingValues_rule` for rewriting. -/
theorem checkMissingValues_rule_eq (df? : Option DataFrame) :
    (checkMissingValues df?).rule = "check_missing_values" :=
  (checkMissingValues_rule df?).1

/-- Projection forms of `checkDataType_rule` for rewriting. -/
theorem checkDataType_rule_eq (df? : Option DataFrame) (c t : String) :
    (checkDataType df? c t).rule = "check_data_type" :=
  (checkDataType_rule df? c t).1

/-- Column projection of `checkDataType_rule`. -/
theorem checkDataType_column_eq (df? : Option DataFrame) (c t : String) :
    (checkDataType df? c t).column = some c :=
  (checkDataType_rule df? c t).2

/-- Projection form of `checkUniqueValues_rule` for rewriting. -/
theorem checkUniqueValues_rule_eq (df? : Option DataFrame) (c : String) :
    (checkUniqueValues df? c).rule = "check_unique_values" :=
  (checkUniqueValues_rule df? c).1

/-- Column projection of `checkUniqueValues_rule`. -/
theorem checkUniqueValues_column_eq (df? : Option DataFrame) (c : String) :
    (checkUniqueValues df? c).column = some c :=
  (checkUniqueValues_rule df? c).2

/-- Projection form of `checkRange_rule` for rewriting. -/
theorem checkRange_rule_eq (df? : Option DataFrame) (c : String)
    (mn mx : Option ℚ) :
    (checkRange df? c mn mx).rule = "check_range" :=
  (checkRange_rule df? c mn mx).1

/-- Column projection of `checkRange_rule`. -/
theorem checkRange_column_eq (df? : Option DataFrame) (c : String)
    (mn mx : Option ℚ) :
    (checkRange df? c mn mx).column = some c :=
  (checkRange_rule df? c mn mx).2

/-- Counting a rule distributes over concatenation. -/
theorem countRule_append (l₁ l₂ : List Result) (R : String) :
    countRule (l₁ ++ l₂) R = countRule l₁ R + countRule l₂ R :=
  List.countP_append _ _ _

/-- Counting a rule and column distributes over concatenation. -/
theorem countRuleCol_append (l₁ l₂ : List Result) (R c : String) :
    countRuleCol (l₁ ++ l₂) R c = countRuleCol l₁ R c + countRuleCol l₂ R c :=
  List.countP_append _ _ _

/-- Counting a rule vanishes on a list of records with a different rule. -/
theorem countRule_zero {l : List Result} {R : String}
    (h : ∀ r ∈ l, r.rule ≠ R) : countRule l R = 0 :=
  countRule_zero_of_ne h

/-- Counting a rule and column vanishes on a list of records with a different rule. -/
theorem countRuleCol_zero {l : List Result} {R c : String}
    (h : ∀ r ∈ l, r.rule ≠ R) : countRuleCol l R c = 0 :=
  countRuleCol_zero_of_ne h

/-- Counting a rule and column over a mapped segment whose records carry rule `R` and
the key as column counts the keys. -/
theorem countRuleCol_map {α : Type _} {l : List α} {f : α → Result}
    {R : String} {key : α → String}
    (hf : ∀ a, (f a).rule = R ∧ (f a).column = some (key a)) (c : String) :
    countRuleCol (l.map f) R c = List.count c (l.map key) :=
  countP_ruleCol_map hf c

/-- A `filterMap` whose guard is everywhere false is a `map`. -/
theorem filterMap_if_false {α β : Type _} {l : List α} {g : α → Bool}
    {f : α → β} (h : ∀ a ∈ l, g a = false) :
    l.filterMap (fun a => if g a then none else some (f a)) = l.map f := by
  induction l with
  | nil => rfl
  | cons x xs ih =>
      have hx := h x (List.mem_cons_self _ _)
      simp only [List.filterMap_cons, hx, Bool.false_eq_true, if_false,
        List.map_cons]
      rw [ih (fun a ha => h a (List.mem_cons_of_mem _ ha))]

/-- With only a load record present, every guard of
`_add_skipped_results_for_config` passes and the helper emits exactly the
spec-side skip placeholder list. -/
theorem addSkipped_load (cfg : Config) (r : Result)
    (h : r.rule = "load_excel") :
    addSkippedResultsForConfig cfg [r] = skippedSpec cfg := by
  have hg1 : ([r].any (fun x => x.rule == "check_column_names")) = false := by
    simp [h]
  have hg2 : ([r].any (fun x => x.rule == "check_missing_values")) = false := by
    simp [h]
  have hg3 : ∀ c : String,
      ([r].any (fun x => x.rule == "check_data_type" && x.column == some c)) = false := by
    intro c; simp [h]
  have hg4 : ∀ c : String,
      ([r].any (fun x => x.rule == "check_unique_values" && x.column == some c)) = false := by
    intro c; simp [h]
  have hg5 : ∀ c : String,
      ([r].any (fun x => x.rule == "check_range" && x.column == some c)) = false := by
    intro c; simp [h]
  unfold addSkippedResultsForConfig skippedSpec
  congr 1
  · congr 1
    · congr 1
      · congr 1
        · unfold skipColNamesSeg specColNamesSeg
          cases cfg.expected_columns
          · rfl
          · rw [hg1]
            rfl
        · unfold skipMissingSeg specMissingSeg
          cases cfg.check_missing_values with
          | none => rfl
          | some b =>
              rw [hg2]
              cases b <;> rfl
      · unfold skipTypesSeg specTypesSeg
        cases cfg.column_types with
        | none => rfl
        | some ts => exact filterMap_if_false (fun p _ => hg3 p.1)
    · unfold skipUniqueSeg specUniqueSeg
      cases cfg.check_unique_values with
      | none => rfl
      | some us => exact filterMap_if_false (fun c _ => hg4 c)
  · unfold skipRangesSeg specRangesSeg
    cases cfg.column_ranges with
    | none => rfl
    | some rs => exact filterMap_if_false (fun p _ => hg5 p.1)

/-- Records of the loaded `expected_columns` group carry that rule. -/
theorem mem_colNamesSeg_rule {df : DataFrame} {cfg : Config} {r : Result}
    (h : r ∈ colNamesSeg df cfg) : r.rule = "check_column_names" := by
  unfold colNamesSeg at h
  cases hE : cfg.expected_columns with
  | none => rw [hE] at h; simp at h
  | some a =>
      rw [hE] at h
      simp at h
      subst h
      exact checkColumnNames_rule_eq _ _

/-- Records of the loaded `check_missing_values` group carry that rule. -/
theorem mem_missingSeg_rule {df : DataFrame} {cfg : Config} {r : Result}
    (h : r ∈ missingSeg df cfg) : r.rule = "check_missing_values" := by
  unfold missingSeg at h
  cases hE : cfg.check_missing_values with
  | none => rw [hE] at h; simp at h
  | some b =>
      rw [hE] at h
      cases b with
      | false => simp at h
      | true =>
          simp at h
          subst h
          exact checkMissingValues_rule_eq _

/-- Records of the loaded `column_types` group carry that rule. -/
theorem mem_typesSeg_rule {df : DataFrame} {cfg : Config} {r : Result}
    (h : r ∈ typesSeg df cfg) : r.rule = "check_data_type" := by
  unfold typesSeg at h
  cases hE : cfg.column_types with
  | none => rw [hE] at h; simp at h
  | some a =>
      rw [hE] at h
      simp only [List.mem_map] at h
      rcases h with ⟨p, _, rfl⟩
      exact checkDataType_rule_eq _ _ _

/-- Records of the loaded `check_unique_values` group carry that rule. -/
theorem mem_uniqueSeg_rule {df : DataFrame} {cfg : Config} {r : Result}
    (h : r ∈ uniqueSeg df cfg) : r.rule = "check_unique_values" := by
  unfold uniqueSeg at h
  cases hE : cfg.check_unique_values with
  | none => rw [hE] at h; simp at h
  | some a =>
      rw [hE] at h
      simp only [List.mem_map] at h
      rcases h with ⟨p, _, rfl⟩
      exact checkUniqueValues_rule_eq _ _

/-- Records of the loaded `column_ranges` group carry that rule. -/
theorem mem_rangesSeg_rule {df : DataFrame} {cfg : Config} {r : Result}
    (h : r ∈ rangesSeg df cfg) : r.rule = "check_range" := by
  unfold rangesSeg at h
  cases hE : cfg.column_ranges with
  | none => rw [hE] at h; simp at h
  | some a =>
      rw [hE] at h
      simp only [List.mem_map] at h
      rcases h with ⟨p, _, rfl⟩
      exact checkRange_rule_eq _ _ _ _

/-- Records of the spec skip `expected_columns` group carry that rule. -/
theorem mem_specColNamesSeg_rule {cfg : Config} {r : Result}
    (h : r ∈ specColNamesSeg cfg) : r.rule = "check_column_names" := by
  unfold specColNamesSeg at h
  cases hE : cfg.expected_columns with
  | none => rw [hE] at h; simp at h
  | some a => rw [hE] at h; simp at h; subst h; rfl

/-- Records of the spec skip `check_missing_values` group carry that
rule. -/
theorem mem_specMissingSeg_rule {cfg : Config} {r : Result}
    (h : r ∈ specMissingSeg cfg) : r.rule = "check_missing_values" := by
  unfold specMissingSeg at h
  cases hE : cfg.check_missing_values with
  | none => rw [hE] at h; simp at h
  | some b =>
      rw [hE] at h
      cases b with
      | false => simp at h
      | true => simp at h; subst h; rfl

/-- Records of the spec skip `column_types` group carry that rule. -/
theorem mem_specTypesSeg_rule {cfg : Config} {r : Result}
    (h : r ∈ specTypesSeg cfg) : r.rule = "check_data_type" := by
  unfold specTypesSeg at h
  cases hE : cfg.column_types with
  | none => rw [hE] at h; simp at h
  | some a =>
      rw [hE] at h
      simp only [List.mem_map] at h
      rcases h with ⟨p, _, rfl⟩
      rfl

/-- Records of the spec skip `check_unique_values` group carry that
rule. -/
theorem mem_specUniqueSeg_rule {cfg : Config} {r : Result}
    (h : r ∈ specUniqueSeg cfg) : r.rule = "check_unique_values" := by
  unfold specUniqueSeg at h
  cases hE : cfg.check_unique_values with
  | none => rw [hE] at h; simp at h
  | some a =>
      rw [hE] at h
      simp only [List.mem_map] at h
      rcases h with ⟨p, _, rfl⟩
      rfl

/-- Records of the spec skip `column_ranges` group carry that rule. -/
theorem mem_specRangesSeg_rule {cfg : Config} {r : Result}
    (h : r ∈ specRangesSeg cfg) : r.rule = "check_range" := by
  unfold specRangesSeg at h
  cases hE : cfg.column_ranges with
  | none => rw [hE] at h; simp at h
  | some a =>
      rw [hE] at h
      simp only [List.mem_map] at h
      rcases h with ⟨p, _, rfl⟩
      rfl

/-- Per-rule record counts of the loaded path of `validate_data`: every
configured rule/column pair yields exactly one record (with list
multiplicity for the per-column groups). -/
theorem counts_ruleResults (df : DataFrame) (cfg : Config) :
    countRule (ruleResults df cfg) "check_column_names" =
      (if cfg.expected_columns.isSome then 1 else 0) ∧
    countRule (ruleResults df cfg) "check_missing_values" =
      (if cfg.check_missing_values = some true then 1 else 0) ∧
    (∀ c, countRuleCol (ruleResults df cfg) "check_data_type" c =
      List.count c ((cfg.column_types.getD []).map Prod.fst)) ∧
    (∀ c, countRuleCol (ruleResults df cfg) "check_unique_values" c =
      List.count c (cfg.check_unique_values.getD [])) ∧
    (∀ c, countRuleCol (ruleResults df cfg) "check_range" c =
      List.count c ((cfg.column_ranges.getD []).map Prod.fst)) := by
  refine ⟨?_, ?_, fun c => ?_, fun c => ?_, fun c => ?_⟩
  · unfold ruleResults
    rw [countRule_append, countRule_append, countRule_append, countRule_append,
      @countRule_zero (missingSeg df cfg) "check_column_names"
        (fun r hr => by rw [mem_missingSeg_rule hr]; decide),
      @countRule_zero (typesSeg df cfg) "check_column_names"
        (fun r hr => by rw [mem_typesSeg_rule hr]; decide),
      @countRule_zero (uniqueSeg df cfg) "check_column_names"
        (fun r hr => by rw [mem_uniqueSeg_rule hr]; decide),
      @countRule_zero (rangesSeg df cfg) "check_column_names"
        (fun r hr => by rw [mem_rangesSeg_rule hr]; decide)]
    unfold colNamesSeg
    cases hE : cfg.expected_columns with
    | none => simp [countRule]
    | some a => simp [countRule, checkColumnNames_rule_eq]
  · unfold ruleResults
    rw [countRule_append, countRule_append, countRule_append, countRule_append,
      @countRule_zero (colNamesSeg df cfg) "check_missing_values"
        (fun r hr => by rw [mem_colNamesSeg_rule hr]; decide),
      @countRule_zero (typesSeg df cfg) "check_missing_values"
        (fun r hr => by rw [mem_typesSeg_rule hr]; decide),
      @countRule_zero (uniqueSeg df cfg) "check_missing_values"
        (fun r hr => by rw [mem_uniqueSeg_rule hr]; decide),
      @countRule_zero (rangesSeg df cfg) "check_missing_values"
        (fun r hr => by rw [mem_rangesSeg_rule hr]; decide)]
    unfold missingSeg
    cases hE : cfg.check_missing_values with
    | none => simp [countRule]
    | some b => cases b <;> simp [countRule, checkMissingValues_rule_eq]
  · unfold ruleResults
    rw [countRuleCol_append, countRuleCol_append, countRuleCol_append,
      countRuleCol_append,
      @countRuleCol_zero (colNamesSeg df cfg) "check_data_type" c
        (fun r hr => by rw [mem_colNamesSeg_rule hr]; decide),
      @countRuleCol_zero (missingSeg df cfg) "check_data_type" c
        (fun r hr => by rw [mem_missingSeg_rule hr]; decide),
      @countRuleCol_zero (uniqueSeg df cfg) "check_data_type" c
        (fun r hr => by rw [mem_uniqueSeg_rule hr]; decide),
      @countRuleCol_zero (rangesSeg df cfg) "check_data_type" c
        (fun r hr => by rw [mem_rangesSeg_rule hr]; decide)]
    unfold typesSeg
    cases hE : cfg.column_types with
    | none => simp [countRuleCol]
    | some a =>
        rw [countRuleCol_map
          (fun p => ⟨checkDataType_rule_eq _ _ _, checkDataType_column_eq _ _ _⟩) c]
        simp
  · unfold ruleResults
    rw [countRuleCol_append, countRuleCol_append, countRuleCol_append,
      countRuleCol_append,
      @countRuleCol_zero (colNamesSeg df cfg) "check_unique_values" c
        (fun r hr => by rw [mem_colNamesSeg_rule hr]; decide),
      @countRuleCol_zero (missingSeg df cfg) "check_unique_values" c
        (fun r hr => by rw [mem_missingSeg_rule hr]; decide),
      @countRuleCol_zero (typesSeg df cfg) "check_unique_values" c
        (fun r hr => by rw [mem_typesSeg_rule hr]; decide),
      @countRuleCol_zero (rangesSeg df cfg) "check_unique_values" c
        (fun r hr => by rw [mem_rangesSeg_rule hr]; decide)]
    unfold uniqueSeg
    cases hE : cfg.check_unique_values with
    | none => simp [countRuleCol]
    | some a =>
        rw [show (fun u => checkUniqueValues (some df) u) =
            (fun u => checkUniqueValues (some df) u) from rfl,
          countRuleCol_map
          (fun u => ⟨checkUniqueValues_rule_eq _ _, checkUniqueValues_column_eq _ _⟩) c]
        simp
  · unfold ruleResults
    rw [countRuleCol_append, countRuleCol_append, countRuleCol_append,
      countRuleCol_append,
      @countRuleCol_zero (colNamesSeg df cfg) "check_range" c
        (fun r hr => by rw [mem_colNamesSeg_rule hr]; decide),
      @countRuleCol_zero (missingSeg df cfg) "check_range" c
        (fun r hr => by rw [mem_missingSeg_rule hr]; decide),
      @countRuleCol_zero (typesSeg df cfg) "check_range" c
        (fun r hr => by rw [mem_typesSeg_rule hr]; decide),
      @countRuleCol_zero (uniqueSeg df cfg) "check_range" c
        (fun r hr => by rw [mem_uniqueSeg_rule hr]; decide)]
    unfold rangesSeg
    cases hE : cfg.column_ranges with
    | none => simp [countRuleCol]
    | some a =>
        rw [countRuleCol_map
          (fun p => ⟨checkRange_rule_eq _ _ _ _, checkRange_column_eq _ _ _ _⟩) c]
        simp

/-- Per-rule record counts of the skip placeholder list: every configured
rule/column pair yields exactly one skipped record (with list multiplicity
for the per-column groups). -/
theorem counts_skippedSpec (cfg : Config) :
    countRule (skippedSpec cfg) "check_column_names" =
      (if cfg.expected_columns.isSome then 1 else 0) ∧
    countRule (skippedSpec cfg) "check_missing_values" =
      (if cfg.check_missing_values = some true then 1 else 0) ∧
    (∀ c, countRuleCol (skippedSpec cfg) "check_data_type" c =
      List.count c ((cfg.column_types.getD []).map Prod.fst)) ∧
    (∀ c, countRuleCol (skippedSpec cfg) "check_unique_values" c =
      List.count c (cfg.check_unique_values.getD [])) ∧
    (∀ c, countRuleCol (skippedSpec cfg) "check_range" c =
      List.count c ((cfg.column_ranges.getD []).map Prod.fst)) := by
  refine ⟨?_, ?_, fun c => ?_, fun c => ?_, fun c => ?_⟩
  · unfold skippedSpec
    rw [countRule_append, countRule_append, countRule_append, countRule_append,
      @countRule_zero (specMissingSeg cfg) "check_column_names"
        (fun r hr => by rw [mem_specMissingSeg_rule hr]; decide),
      @countRule_zero (specTypesSeg cfg) "check_column_names"
        (fun r hr => by rw [mem_specTypesSeg_rule hr]; decide),
      @countRule_zero (specUniqueSeg cfg) "check_column_names"
        (fun r hr => by rw [mem_specUniqueSeg_rule hr]; decide),
      @countRule_zero (specRangesSeg cfg) "check_column_names"
        (fun r hr => by rw [mem_specRangesSeg_rule hr]; decide)]
    unfold specColNamesSeg
    cases hE : cfg.expected_columns with
    | none => simp [countRule]
    | some a => simp [countRule, skipRecord]
  · unfold skippedSpec
    rw [countRule_append, countRule_append, countRule_append, countRule_append,
      @countRule_zero (specColNamesSeg cfg) "check_missing_values"
        (fun r hr => by rw [mem_specColNamesSeg_rule hr]; decide),
      @countRule_zero (specTypesSeg cfg) "check_missing_values"
        (fun r hr => by rw [mem_specTypesSeg_rule hr]; decide),
      @countRule_zero (specUniqueSeg cfg) "check_missing_values"
        (fun r hr => by rw [mem_specUniqueSeg_rule hr]; decide),
      @countRule_zero (specRangesSeg cfg) "check_missing_values"
        (fun r hr => by rw [mem_specRangesSeg_rule hr]; decide)]
    unfold specMissingSeg
    cases hE : cfg.check_missing_values with
    | none => simp [countRule]
    | some b => cases b <;> simp [countRule, skipRecord]
  · unfold skippedSpec
    rw [countRuleCol_append, countRuleCol_append, countRuleCol_append,
      countRuleCol_append,
      @countRuleCol_zero (specColNamesSeg cfg) "check_data_type" c
        (fun r hr => by rw [mem_specColNamesSeg_rule hr]; decide),
      @countRuleCol_zero (specMissingSeg cfg) "check_data_type" c
        (fun r hr => by rw [mem_specMissingSeg_rule hr]; decide),
      @countRuleCol_zero (specUniqueSeg cfg) "check_data_type" c
        (fun r hr => by rw [mem_specUniqueSeg_rule hr]; decide),
      @countRuleCol_zero (specRangesSeg cfg) "check_data_type" c
        (fun r hr => by rw [mem_specRangesSeg_rule hr]; decide)]
    unfold specTypesSeg
    cases hE : cfg.column_types with
    | none => simp [countRuleCol]
    | some a =>
        dsimp only
        rw [@countRuleCol_map _ a
          (fun p => skipRecord ("check_data_type") (some p.1))
          ("check_data_type") Prod.fst (fun p => ⟨rfl, rfl⟩) c]
        simp
  · unfold skippedSpec
    rw [countRuleCol_append, countRuleCol_append, countRuleCol_append,
      countRuleCol_append,
      @countRuleCol_zero (specColNamesSeg cfg) "check_unique_values" c
        (fun r hr => by rw [mem_specColNamesSeg_rule hr]; decide),
      @countRuleCol_zero (specMissingSeg cfg) "check_unique_values" c
        (fun r hr => by rw [mem_specMissingSeg_rule hr]; decide),
      @countRuleCol_zero (specTypesSeg cfg) "check_unique_values" c
        (fun r hr => by rw [mem_specTypesSeg_rule hr]; decide),
      @countRuleCol_zero (specRangesSeg cfg) "check_unique_values" c
        (fun r hr => by rw [mem_specRangesSeg_rule hr]; decide)]
    unfold specUniqueSeg
    cases hE : cfg.check_unique_values with
    | none => simp [countRuleCol]
    | some a =>
        dsimp only
        rw [@countRuleCol_map _ a
          (fun u => skipRecord ("check_unique_values") (some u))
          ("check_unique_values") (fun u => u) (fun u => ⟨rfl, rfl⟩) c]
        simp
  · unfold skippedSpec
    rw [countRuleCol_append, countRuleCol_append, countRuleCol_append,
      countRuleCol_append,
      @countRuleCol_zero (specColNamesSeg cfg) "check_range" c
        (fun r hr => by rw [mem_specColNamesSeg_rule hr]; decide),
      @countRuleCol_zero (specMissingSeg cfg) "check_range" c
        (fun r hr => by rw [mem_specMissingSeg_rule hr]; decide),
      @countRuleCol_zero (specTypesSeg cfg) "check_range" c
        (fun r hr => by rw [mem_specTypesSeg_rule hr]; decide),
      @countRuleCol_zero (specUniqueSeg cfg) "check_range" c
        (fun r hr => by rw [mem_specUniqueSeg_rule hr]; decide)]
    unfold specRangesSeg
    cases hE : cfg.column_ranges with
    | none => simp [countRuleCol]
    | some a =>
        dsimp only
        rw [@countRuleCol_map _ a
          (fun p => skipRecord ("check_range") (some p.1))
          ("check_range") Prod.fst (fun p => ⟨rfl, rfl⟩) c]
        simp

/-- No record of the loaded path carries the rule `load_excel`. -/
theorem find?_load_ruleResults (df : DataFrame) (cfg : Config) :
    (ruleResults df cfg).find? (fun r => r.rule == "load_excel") = none := by
  refine List.find?_eq_none.mpr (fun x hx => ?_)
  unfold ruleResults at hx
  simp only [List.mem_append] at hx
  have hne : x.rule ≠ "load_excel" := by
    rcases hx with (((h | h) | h) | h) | h
    · rw [mem_colNamesSeg_rule h]; decide
    · rw [mem_missingSeg_rule h]; decide
    · rw [mem_typesSeg_rule h]; decide
    · rw [mem_uniqueSeg_rule h]; decide
    · rw [mem_rangesSeg_rule h]; decide
  simpa using hne

end Lemmas

section Claims

/-- C3: for every column of a table and configured min and/or max bound,
the failure index lists of the range check never contain the index of a cell
whose coerced numeric value equals the bound: the below-minimum list
collects an index exactly when the coerced value is strictly below the
minimum, and the above-maximum list exactly when it is strictly above the
maximum, so both boundaries are inclusive. -/
theorem range_check_boundaries_inclusive
    (col : List Cell) (mn mx : ℚ) (i : ℕ) (c : Cell)
    (hc : col.get? i = some c) :
    (c.toNumeric? = some mn → i ∉ belowMinIndices col mn) ∧
    (c.toNumeric? = some mx → i ∉ aboveMaxIndices col mx) ∧
    (i ∈ belowMinIndices col mn ↔
      ∃ c' q, col.get? i = some c' ∧ c'.toNumeric? = some q ∧ q < mn) ∧
    (i ∈ aboveMaxIndices col mx ↔
      ∃ c' q, col.get? i = some c' ∧ c'.toNumeric? = some q ∧ mx < q) := by
  refine ⟨?_, ?_, mem_belowMinIndices, mem_aboveMaxIndices⟩
  · intro hq hmem
    rcases mem_belowMinIndices.mp hmem with ⟨c', q, hc', hq', hlt⟩
    rw [hc] at hc'
    cases hc'
    rw [hq] at hq'
    cases hq'
    exact lt_irrefl _ hlt
  · intro hq hmem
    rcases mem_aboveMaxIndices.mp hmem with ⟨c', q, hc', hq', hlt⟩
    rw [hc] at hc'
    cases hc'
    rw [hq] at hq'
    cases hq'
    exact lt_irrefl _ hlt

/-- Witness for C3 at the one-cell column `[5]` with both bounds `5`: the
boundary value is in neither failure index list. -/
theorem range_check_boundaries_inclusive_witness :
    ((Cell.num 5).toNumeric? = some 5 → 0 ∉ belowMinIndices [Cell.num 5] 5) ∧
    ((Cell.num 5).toNumeric? = some 5 → 0 ∉ aboveMaxIndices [Cell.num 5] 5) ∧
    (0 ∈ belowMinIndices [Cell.num 5] 5 ↔
      ∃ c' q, [Cell.num 5].get? 0 = some c' ∧ c'.toNumeric? = some q ∧ q < 5) ∧
    (0 ∈ aboveMaxIndices [Cell.num 5] 5 ↔
      ∃ c' q, [Cell.num 5].get? 0 = some c' ∧ c'.toNumeric? = some q ∧ 5 < q) :=
  range_check_boundaries_inclusive [Cell.num 5] 5 5 0 (Cell.num 5) rfl

/-- C4: the numeric data-type check with expected tag `int` fails exactly
at the non-null cells that either cannot be coerced to a number or coerce
to a value with nonzero fractional remainder, while tag `float` fails
exactly at the non-null cells that cannot be coerced; and the column
`[1.0, 2.0, 3.5]` checked as `int` fails with failing-index list `[2]`
only, while checked as `float` it passes. -/
theorem data_type_int_vs_float :
    (∀ (col : List Cell) (i : ℕ),
        i ∈ dtFailedIndices col true ↔
          ∃ c, col.get? i = some c ∧ c.isNull = false ∧
            (c.toNumeric? = none ∨ ∃ q, c.toNumeric? = some q ∧ q.den ≠ 1)) ∧
    (∀ (col : List Cell) (i : ℕ),
        i ∈ dtFailedIndices col false ↔
          ∃ c, col.get? i = some c ∧ c.isNull = false ∧ c.toNumeric? = none) ∧
    threeAndHalf = 7 / 2 ∧
    dtFailedIndices [Cell.num 1, Cell.num 2, Cell.num threeAndHalf] true = [2] ∧
    checkDataType (some [("FloatCol", [Cell.num 1, Cell.num 2, Cell.num threeAndHalf])])
        "FloatCol" "int" =
      { rule := "check_data_type", status := "failed", column := some ("FloatCol"),
        details := some ("Expected type \x27int\x27, but non-numeric or non-integer values found at indices [2].") } ∧
    checkDataType (some [("FloatCol", [Cell.num 1, Cell.num 2, Cell.num threeAndHalf])])
        "FloatCol" "float" =
      { rule := "check_data_type", status := "passed", column := some ("FloatCol") } := by
  refine ⟨?_, ?_,
    by unfold threeAndHalf; rw [Rat.mk'_eq_divInt, Rat.divInt_eq_div]; norm_num,
    by decide, by decide, by decide⟩
  · intro col i
    rw [mem_dtFailedIndices]
    constructor
    · rintro ⟨c, hc, hnull, hcase⟩
      refine ⟨c, hc, hnull, ?_⟩
      rcases hcase with h | ⟨_, h⟩
      · exact Or.inl h
      · exact Or.inr h
    · rintro ⟨c, hc, hnull, hcase⟩
      exact ⟨c, hc, hnull, hcase.imp id (fun h => ⟨rfl, h⟩)⟩
  · intro col i
    rw [mem_dtFailedIndices]
    constructor
    · rintro ⟨c, hc, hnull, hcase⟩
      rcases hcase with h | ⟨h, _⟩
      · exact ⟨c, hc, hnull, h⟩
      · exact absurd h (by simp)
    · rintro ⟨c, hc, hnull, h⟩
      exact ⟨c, hc, hnull, Or.inl h⟩

/-- C5: contrary to the claim, the range check returns a `passed` record
on an entirely-null column: `pd.to_numeric(..., errors="coerce")` always
yields a numeric float series there, all comparisons against NaN are
false, and the source branch reporting "not numeric and cannot be checked" is
unreachable; this theorem evaluates the code at the failing input. -/
theorem range_check_all_null_column_passes :
    checkRange (some [("V", [Cell.null, Cell.null])]) "V" (some 0) none =
      { rule := "check_range", status := "passed", column := some ("V") } := by
  decide

/-- C2 counterexample: on a table without a `Name` column,
`find_duplicates` raises `KeyError` at `df["Name"]` instead of returning
an empty pair list. -/
theorem find_duplicates_missing_name_column_errors :
    findDuplicatesDF (fun _ _ => 0) [("Other", [Cell.text ("x")])] =
      Except.error ("KeyError: \x27Name\x27") ∧
    findDuplicatesDF (fun _ _ => 0) [("Other", [Cell.text ("x")])] ≠
      Except.ok [] := by
  refine ⟨rfl, ?_⟩
  intro h
  rw [show findDuplicatesDF (fun _ _ => 0) [("Other", [Cell.text ("x")])] =
      Except.error ("KeyError: \x27Name\x27") from rfl] at h
  exact Except.noConfusion h

/-- C2 amended: for every table whose columns do not include a `Name`
column, the duplicate detector raises a `KeyError` (modelled as an error
value) rather than returning a list of pairs. -/
theorem find_duplicates_missing_name_column_raises
    (similarity : String → String → ℕ) (df : DataFrame)
    (h : colLookup df ("Name") = none) :
    findDuplicatesDF similarity df = Except.error ("KeyError: \x27Name\x27") := by
  unfold findDuplicatesDF
  rw [h]

/-- Witness for the amended C2 at a concrete one-column table. -/
theorem find_duplicates_missing_name_column_raises_witness :
    colLookup [("Other", [Cell.text ("x")])] "Name" = none ∧
    findDuplicatesDF (fun _ _ => 1) [("Other", [Cell.text ("x")])] =
      Except.error ("KeyError: \x27Name\x27") :=
  ⟨rfl, find_duplicates_missing_name_column_raises (fun _ _ => 1)
    [("Other", [Cell.text ("x")])] rfl⟩

/-- C7 counterexample: on the column `[2, 2, null, null]` the uniqueness
check fails (the value 2 repeats among non-null cells), but the listed
duplicated values are computed from the full column with pandas treating
NaN cells as equal, so `null` appears among them — refuting the claim
that null is never among the listed duplicated values. -/
theorem unique_check_lists_null_counterexample :
    (checkUniqueValues (some [("ID", [Cell.num 2, Cell.num 2, Cell.null, Cell.null])])
        "ID").status = "failed" ∧
    Cell.null ∈ duplicatedValues [Cell.num 2, Cell.num 2, Cell.null, Cell.null] ∧
    (checkUniqueValues (some [("ID", [Cell.num 2, Cell.num 2, Cell.null, Cell.null])])
        "ID").details =
      some ("Duplicate values found in column \x27ID\x27. Duplicated values (showing first occurrence): [2, nan]") := by
  refine ⟨by decide, by decide, by decide⟩

/-- C7 amended: the uniqueness check fails iff some non-null value repeats
among the non-null cells of the column (null cells never cause a failure), and
on failure the details list the values that occur at least twice in the
full column — nulls compared equal to each other, so null is listed when
two or more cells are null — de-duplicated keeping first occurrences. -/
theorem unique_check_semantics
    (df : DataFrame) (column : String) (col : List Cell)
    (hcol : colLookup df column = some col) :
    ((checkUniqueValues (some df) column).status = "failed" ↔
      ¬ (col.filter (fun c => !c.isNull)).Nodup) ∧
    ((checkUniqueValues (some df) column).status = "passed" ↔
      (col.filter (fun c => !c.isNull)).Nodup) ∧
    (∀ v, v ∈ duplicatedValues col ↔ 2 ≤ col.count v) ∧
    (duplicatedValues col).Nodup ∧
    ((checkUniqueValues (some df) column).status = "failed" →
      (checkUniqueValues (some df) column).details =
        some ("Duplicate values found in column \x27" ++ column ++
          "\x27. Duplicated values (showing first occurrence): " ++
          pyCellList (duplicatedValues col))) := by
  have hrec : checkUniqueValues (some df) column =
      (if (col.filter (fun c => !c.isNull)).Nodup then
        { rule := "check_unique_values", status := "passed", column := some column }
      else
        { rule := "check_unique_values", status := "failed", column := some column,
          details := some ("Duplicate values found in column \x27" ++ column ++
            "\x27. Duplicated values (showing first occurrence): " ++
            pyCellList (duplicatedValues col)) }) := by
    unfold checkUniqueValues
    dsimp only
    rw [hcol]
  refine ⟨?_, ?_, ?_, ?_, ?_⟩
  · rw [hrec]
    split
    · simp_all
    · simp_all
  · rw [hrec]
    split
    · simp_all
    · simp_all
  · intro v
    unfold duplicatedValues
    rw [mem_pandasUnique, List.mem_filter]
    constructor
    · rintro ⟨_, h⟩
      simpa using h
    · intro h
      exact ⟨List.count_pos_iff.mp (lt_of_lt_of_le (by norm_num) h), by simpa using h⟩
  · exact nodup_pandasUnique _
  · rw [hrec]
    split
    · simp_all
    · intro _
      rfl

/-- Witness for the amended C7 at the column `[2, 2, null, null]` of a
concrete table. -/
theorem unique_check_semantics_witness :
    colLookup [("ID", [Cell.num 2, Cell.num 2, Cell.null, Cell.null])] "ID" =
      some [Cell.num 2, Cell.num 2, Cell.null, Cell.null] ∧
    ((checkUniqueValues (some [("ID", [Cell.num 2, Cell.num 2, Cell.null, Cell.null])])
        "ID").status = "failed" ↔
      ¬ ([Cell.num 2, Cell.num 2, Cell.null, Cell.null].filter
          (fun c => !c.isNull)).Nodup) :=
  ⟨rfl, (unique_check_semantics [("ID", [Cell.num 2, Cell.num 2, Cell.null, Cell.null])]
    "ID" [Cell.num 2, Cell.num 2, Cell.null, Cell.null] rfl).1⟩

/-- C8: the duplicate detector emits the pair `(i, j, name_i, name_j)`
exactly for those index pairs `i < j` where both names are present and
non-null and the similarity similarity of the names coerced to text strictly
exceeds 90 (a similarity equal to 90 is not emitted), and the output list is
ordered by `(i, j)`. -/
theorem find_duplicates_pairs_characterization
    (similarity : String → String → ℕ) (names : List Cell) :
    (∀ i j a b, (i, j, a, b) ∈ findDuplicates similarity names ↔
      (i < j ∧ names.get? i = some a ∧ names.get? j = some b ∧
       a.isNull = false ∧ b.isNull = false ∧
       90 < similarity a.toText b.toText)) ∧
    List.Pairwise (fun p q : ℕ × ℕ × Cell × Cell =>
      p.1 < q.1 ∨ (p.1 = q.1 ∧ p.2.1 < q.2.1))
      (findDuplicates similarity names) := by
  constructor
  · intro i j a b
    unfold findDuplicates
    rw [List.mem_flatMap]
    constructor
    · rintro ⟨k, _, hmem⟩
      rcases mem_findDupOuter.mp hmem with ⟨a', hget, hnulla, hin⟩
      rcases mem_findDupInner.mp hin with ⟨j', b', heq, hij, hgetj, hnullb, hr⟩
      simp only [Prod.mk.injEq] at heq
      obtain ⟨rfl, rfl, rfl, rfl⟩ := heq
      exact ⟨hij, hget, hgetj, hnulla, hnullb, hr⟩
    · rintro ⟨hij, hgeti, hgetj, hnulla, hnullb, hr⟩
      refine ⟨i, List.mem_range.mpr (lt_length_of_get?_eq_some hgeti), ?_⟩
      exact mem_findDupOuter.mpr ⟨a, hgeti, hnulla,
        mem_findDupInner.mpr ⟨j, b, rfl, hij, hgetj, hnullb, hr⟩⟩
  · unfold findDuplicates
    refine pairwise_flatMap_of (S := (· < ·)) (List.pairwise_lt_range _)
      ?_ ?_
    · intro k _
      unfold findDupOuter
      cases hk : names.get? k with
      | none => simp
      | some a =>
          dsimp only
          by_cases hnull : a.isNull
          · rw [if_pos hnull]; simp
          · rw [if_neg hnull]
            unfold findDupInner
            refine pairwise_filterMap_of (S := (· < ·))
              (List.pairwise_lt_range' _ _) ?_
            intro j j' hjj' x hx y hy
            rcases findDupCandidate_some_iff.mp hx with ⟨bx, _, _, _, rfl⟩
            rcases findDupCandidate_some_iff.mp hy with ⟨b2, _, _, _, rfl⟩
            exact Or.inr ⟨rfl, hjj'⟩
    · intro k k' hkk' x hx y hy
      rw [findDupOuter_fst hx, findDupOuter_fst hy]
      exact Or.inl hkk'

/-- C10: on a fresh session whose table was never loaded (no load record
exists), `validate_data` returns false, inserts the failed load record
with details "DataFrame not loaded before validation." first, and appends
one skipped placeholder per configured rule/column pair, as enumerated by
`skippedSpec`. -/
theorem validate_data_unloaded_fresh_session (cfg : Config) :
    (validateData { df := none, config := cfg, detailed_results := [] }).1 = false ∧
    failedLoadRecord =
      { rule := "load_excel", status := "failed", column := none,
        details := some ("DataFrame not loaded before validation.") } ∧
    (validateData { df := none, config := cfg, detailed_results := [] }).2.detailed_results =
      failedLoadRecord :: skippedSpec cfg := by
  refine ⟨rfl, rfl, ?_⟩
  show [failedLoadRecord] ++ addSkippedResultsForConfig cfg [failedLoadRecord] =
    failedLoadRecord :: skippedSpec cfg
  rw [addSkipped_load cfg failedLoadRecord rfl]
  rfl

/-- C6: `validate_data` is idempotent — a second call on the session the
first call produced, with table and configuration unchanged, returns the
same boolean and leaves the identical, order-sensitive Outcome Record
list. -/
theorem validate_data_idempotent (s : Session) :
    validateData ((validateData s).2) = validateData s := by
  obtain ⟨df, cfg, results⟩ := s
  cases df with
  | none =>
      cases hl : results.find? (fun r => r.rule == "load_excel") with
      | some r =>
          have hrb : (r.rule == "load_excel") = true := by
            have h2 := List.find?_some hl
            exact h2
          have hfind : (([r] : List Result) ++
              addSkippedResultsForConfig cfg [r]).find?
              (fun x => x.rule == "load_excel") = some r := by
            rw [List.singleton_append]
            exact List.find?_cons_of_pos _ hrb
          simp only [validateData, hl, hfind]
      | none =>
          have hfind : (([failedLoadRecord] : List Result) ++
              addSkippedResultsForConfig cfg [failedLoadRecord]).find?
              (fun x => x.rule == "load_excel") = some failedLoadRecord := by
            rw [List.singleton_append]
            exact List.find?_cons_of_pos _ rfl
          simp only [validateData, hl, hfind]
  | some dfv =>
      cases hl : results.find? (fun r => r.rule == "load_excel") with
      | some r =>
          have hrb : (r.rule == "load_excel") = true := by
            have h2 := List.find?_some hl
            exact h2
          have hfind : (([r] : List Result) ++ ruleResults dfv cfg).find?
              (fun x => x.rule == "load_excel") = some r := by
            rw [List.singleton_append]
            exact List.find?_cons_of_pos _ hrb
          simp only [validateData, hl, hfind]
      | none =>
          have hfind : (([] : List Result) ++ ruleResults dfv cfg).find?
              (fun x => x.rule == "load_excel") = none := by
            rw [List.nil_append]
            exact find?_load_ruleResults dfv cfg
          simp only [validateData, hl, hfind]

/-- C9: generating the report is a pure read of the session — the
accumulated Outcome Record list (indeed the whole session) is unchanged,
and two consecutive calls return identical report strings. -/
theorem generate_report_pure_read (s : Session) :
    (generateReport s).2 = s ∧
    (generateReport s).2.detailed_results = s.detailed_results ∧
    (generateReport ((generateReport s).2)).1 = (generateReport s).1 :=
  ⟨rfl, rfl, rfl⟩

/-- C1: after `validate_data`, whatever the load outcome, the accumulated
record list holds exactly one record per rule/column pair named in the
configuration: one `check_column_names` when `expected_columns` is
configured, one `check_missing_values` when that toggle is set, and one
per configured column for `check_data_type`, `check_unique_values` and
`check_range` (configurations are dict-backed, so their column lists are
duplicate-free). -/
theorem validate_data_one_record_per_configured_pair (s : Session)
    (hT : ((s.config.column_types.getD []).map Prod.fst).Nodup)
    (hU : (s.config.check_unique_values.getD []).Nodup)
    (hR : ((s.config.column_ranges.getD []).map Prod.fst).Nodup) :
    countRule ((validateData s).2.detailed_results) "check_column_names" =
      (if s.config.expected_columns.isSome then 1 else 0) ∧
    countRule ((validateData s).2.detailed_results) "check_missing_values" =
      (if s.config.check_missing_values = some true then 1 else 0) ∧
    (∀ c, countRuleCol ((validateData s).2.detailed_results) "check_data_type" c =
      (if c ∈ (s.config.column_types.getD []).map Prod.fst then 1 else 0)) ∧
    (∀ c, countRuleCol ((validateData s).2.detailed_results) "check_unique_values" c =
      (if c ∈ s.config.check_unique_values.getD [] then 1 else 0)) ∧
    (∀ c, countRuleCol ((validateData s).2.detailed_results) "check_range" c =
      (if c ∈ (s.config.column_ranges.getD []).map Prod.fst then 1 else 0)) := by
  obtain ⟨df, cfg, results⟩ := s
  have assemble : ∀ base body : List Result,
      (∀ x ∈ base, x.rule = "load_excel") →
      (countRule body ("check_column_names") =
        (if cfg.expected_columns.isSome then 1 else 0) ∧
       countRule body ("check_missing_values") =
        (if cfg.check_missing_values = some true then 1 else 0) ∧
       (∀ c, countRuleCol body ("check_data_type") c =
        List.count c ((cfg.column_types.getD []).map Prod.fst)) ∧
       (∀ c, countRuleCol body ("check_unique_values") c =
        List.count c (cfg.check_unique_values.getD [])) ∧
       (∀ c, countRuleCol body ("check_range") c =
        List.count c ((cfg.column_ranges.getD []).map Prod.fst))) →
      (countRule (base ++ body) "check_column_names" =
        (if cfg.expected_columns.isSome then 1 else 0) ∧
       countRule (base ++ body) "check_missing_values" =
        (if cfg.check_missing_values = some true then 1 else 0) ∧
       (∀ c, countRuleCol (base ++ body) "check_data_type" c =
        (if c ∈ (cfg.column_types.getD []).map Prod.fst then 1 else 0)) ∧
       (∀ c, countRuleCol (base ++ body) "check_unique_values" c =
        (if c ∈ cfg.check_unique_values.getD [] then 1 else 0)) ∧
       (∀ c, countRuleCol (base ++ body) "check_range" c =
        (if c ∈ (cfg.column_ranges.getD []).map Prod.fst then 1 else 0))) := by
    rintro base body hb ⟨c1, c2, c3, c4, c5⟩
    refine ⟨?_, ?_, fun c => ?_, fun c => ?_, fun c => ?_⟩
    · rw [countRule_append,
        @countRule_zero base ("check_column_names")
          (fun x hx => by rw [hb x hx]; decide),
        Nat.zero_add, c1]
    · rw [countRule_append,
        @countRule_zero base ("check_missing_values")
          (fun x hx => by rw [hb x hx]; decide),
        Nat.zero_add, c2]
    · rw [countRuleCol_append,
        @countRuleCol_zero base ("check_data_type") c
          (fun x hx => by rw [hb x hx]; decide),
        Nat.zero_add, c3 c, count_eq_ite_of_nodup hT c]
    · rw [countRuleCol_append,
        @countRuleCol_zero base ("check_unique_values") c
          (fun x hx => by rw [hb x hx]; decide),
        Nat.zero_add, c4 c, count_eq_ite_of_nodup hU c]
    · rw [countRuleCol_append,
        @countRuleCol_zero base ("check_range") c
          (fun x hx => by rw [hb x hx]; decide),
        Nat.zero_add, c5 c, count_eq_ite_of_nodup hR c]
  cases df with
  | none =>
      cases hl : results.find? (fun r => r.rule == "load_excel") with
      | some r =>
          have hr : r.rule = "load_excel" := by simpa using List.find?_some hl
          have hout : (validateData ⟨none, cfg, results⟩).2.detailed_results =
              [r] ++ skippedSpec cfg := by
            simp only [validateData, hl]
            rw [addSkipped_load cfg r hr]
          rw [hout]
          exact assemble [r] (skippedSpec cfg)
            (fun x hx => by rcases List.mem_singleton.mp hx with rfl; exact hr)
            (counts_skippedSpec cfg)
      | none =>
          have hout : (validateData ⟨none, cfg, results⟩).2.detailed_results =
              [failedLoadRecord] ++ skippedSpec cfg := by
            simp only [validateData, hl]
            rw [addSkipped_load cfg failedLoadRecord rfl]
          rw [hout]
          exact assemble [failedLoadRecord] (skippedSpec cfg)
            (fun x hx => by rcases List.mem_singleton.mp hx with rfl; rfl)
            (counts_skippedSpec cfg)
  | some dfv =>
      cases hl : results.find? (fun r => r.rule == "load_excel") with
      | some r =>
          have hr : r.rule = "load_excel" := by simpa using List.find?_some hl
          have hout : (validateData ⟨some dfv, cfg, results⟩).2.detailed_results =
              [r] ++ ruleResults dfv cfg := by
            simp only [validateData, hl]
          rw [hout]
          exact assemble [r] (ruleResults dfv cfg)
            (fun x hx => by rcases List.mem_singleton.mp hx with rfl; exact hr)
            (counts_ruleResults dfv cfg)
      | none =>
          have hout : (validateData ⟨some dfv, cfg, results⟩).2.detailed_results =
              [] ++ ruleResults dfv cfg := by
            simp only [validateData, hl]
          rw [hout]
          exact assemble [] (ruleResults dfv cfg)
            (fun x hx => absurd hx (List.not_mem_nil x))
            (counts_ruleResults dfv cfg)

/-- Witness for C1 at a concrete loaded session configuring all five rule
groups. -/
theorem validate_data_one_record_per_configured_pair_witness :
    ((exampleSession.config.column_types.getD []).map Prod.fst).Nodup ∧
    countRule ((validateData exampleSession).2.detailed_results)
      "check_column_names" =
      (if exampleSession.config.expected_columns.isSome then 1 else 0) :=
  ⟨by decide,
    (validate_data_one_record_per_configured_pair exampleSession
      (by decide) (by decide) (by decide)).1⟩

end Claims

end ExcelFileValidator
